import Mathlib

/-!
Verification development for the Morpheus MyProvider dashboard client.

The definitions below are shallow embeddings of the client-side logic of the
repository: the static chain/network table and chain auto-detection
(`src/lib/constants.ts`, `src/lib/ApiContext.tsx`), the connect sequence of
`configure` and the session-restore path (`src/lib/ApiContext.tsx`), the
bid-fetching methods and the endpoint-reachability probe of `ApiService`
(`apiService.ts`), the model-sync reconciliation and configuration generator
(`ModelConfigGenerator`), and the provider-creation handler (`ProviderTab`).

HTTP transports are modelled as explicit oracles (records of the values the
remote endpoints would return, or `Option`/markers for thrown errors), and
each operation returns, alongside its result, the list of outbound calls it
issued, so that sequencing and short-circuit properties can be stated.
-/

set_option linter.unusedVariables false

namespace MyProvider

/-- The two supported chains (`type Chain` in `types.ts`). -/
inductive Chain
  | arbitrum
  | base
deriving DecidableEq, Repr

/-- The two supported networks (`type Network` in `types.ts`). -/
inductive Network
  | mainnet
  | testnet
deriving DecidableEq, Repr

/-- `interface NetworkConfig` from `types.ts`. -/
structure NetworkConfig where
  name : String
  apiUrl : String
  diamondContract : String
  morTokenContract : String
  chainId : String
  blockscoutApiUrl : String
deriving DecidableEq, Repr

/-- `CHAINS.arbitrum.mainnet` from `constants.ts`. -/
def arbitrumMainnet : NetworkConfig :=
  { name := "Arbitrum Mainnet"
    apiUrl := "http://your-mainnet-provider.domain.io:8082"
    diamondContract := "0xDE819AaEE474626E3f34Ef0263373357e5a6C71b"
    morTokenContract := "0x092bAaDB7DEf4C3981454dD9c0A0D7FF07bCFc86"
    chainId := "42161"
    blockscoutApiUrl := "https://arbitrum.blockscout.com/api" }

/-- `CHAINS.arbitrum.testnet` from `constants.ts`. -/
def arbitrumTestnet : NetworkConfig :=
  { name := "Arbitrum Sepolia"
    apiUrl := "http://your-testnet-provider.domain.io:8082"
    diamondContract := "0xb8C55cD613af947E73E262F0d3C54b7211Af16CF"
    morTokenContract := "0x34a285a1b1c166420df5b6630132542923b5b27e"
    chainId := "421614"
    blockscoutApiUrl := "https://arbitrum-sepolia.blockscout.com/api" }

/-- `CHAINS.base.mainnet` from `constants.ts`. -/
def baseMainnet : NetworkConfig :=
  { name := "Base Mainnet"
    apiUrl := "http://your-mainnet-provider.domain.io:8082"
    diamondContract := "0x6aBE1d282f72B474E54527D93b979A4f64d3030a"
    morTokenContract := "0x7431aDa8a591C955a994a21710752EF9b882b8e3"
    chainId := "8453"
    blockscoutApiUrl := "https://base.blockscout.com/api" }

/-- `CHAINS.base.testnet` from `constants.ts`. -/
def baseTestnet : NetworkConfig :=
  { name := "Base Sepolia"
    apiUrl := "http://your-testnet-provider.domain.io:8082"
    diamondContract := "0x6e4d0B775E3C3b02683A6F277Ac80240C4aFF930"
    morTokenContract := "0x5C80Ddd187054E1E4aBBfFCD750498e81d34FfA3"
    chainId := "84532"
    blockscoutApiUrl := "https://base-sepolia.blockscout.com/api" }

/-- The `CHAINS` table of `constants.ts`, flattened in the iteration order of
the nested `Object.entries` loops in `configure` (`ApiContext.tsx`):
`arbitrum` before `base`, and within each chain `mainnet` before `testnet`
(the `name` entry of each `ChainConfig` is skipped by the loop). -/
def chainEntries : List (Chain × Network × NetworkConfig) :=
  [(Chain.arbitrum, Network.mainnet, arbitrumMainnet),
   (Chain.arbitrum, Network.testnet, arbitrumTestnet),
   (Chain.base, Network.mainnet, baseMainnet),
   (Chain.base, Network.testnet, baseTestnet)]

/-- `String.prototype.toLowerCase()` restricted to the ASCII range, which is
all the code ever lowercases (hex contract addresses). -/
def lowerString (s : String) : String :=
  String.mk (s.toList.map Char.toLower)

/-- The chain/network auto-detection loop of `configure` (`ApiContext.tsx`,
step 3), as a pure function of the reported chain id (already a string) and
diamond-contract address: iterate the flattened `CHAINS` table, compare the
chain id for string equality and the diamond contract case-insensitively
(both sides lowercased), first match wins; no match yields `none`. -/
def detectChainNetwork (detectedChainId detectedDiamond : String) : Option (Chain × Network) :=
  (chainEntries.find? fun e =>
      e.2.2.chainId == detectedChainId &&
      lowerString e.2.2.diamondContract == lowerString detectedDiamond).map
    fun e => (e.1, e.2.1)

theorem find?_isSome_eq_any {α : Type} (p : α → Bool) (l : List α) :
    (l.find? p).isSome = l.any p := by
  induction l with
  | nil => rfl
  | cons h t ih =>
    by_cases hp : p h
    · simp [List.find?, hp]
    · simp only [List.find?, List.any, hp, Bool.false_or]
      simpa [hp] using ih

/-- C3: chain/network auto-detection is a pure function of the reported chain
id and diamond-contract address. Each of the four static
(chainId, diamondContract) pairs of the `CHAINS` table detects exactly its
(chain, network) pair, the contract comparison is case-insensitive, and any
(chainId, address) pair matching no table entry yields `none` (in `configure`
this `none` becomes the hard `CHAIN_NOT_RECOGNIZED` failure) — in particular
chain id "999999" fails with every address. -/
theorem chain_detection_determinism :
    (detectChainNetwork "42161" "0xDE819AaEE474626E3f34Ef0263373357e5a6C71b"
        = some (Chain.arbitrum, Network.mainnet)) ∧
    (detectChainNetwork "421614" "0xb8C55cD613af947E73E262F0d3C54b7211Af16CF"
        = some (Chain.arbitrum, Network.testnet)) ∧
    (detectChainNetwork "8453" "0x6aBE1d282f72B474E54527D93b979A4f64d3030a"
        = some (Chain.base, Network.mainnet)) ∧
    (detectChainNetwork "84532" "0x6e4d0B775E3C3b02683A6F277Ac80240C4aFF930"
        = some (Chain.base, Network.testnet)) ∧
    (detectChainNetwork "42161" "0XDE819AAEE474626E3F34EF0263373357E5A6C71B"
        = some (Chain.arbitrum, Network.mainnet)) ∧
    (∀ cid addr,
      (∀ e ∈ chainEntries,
          ¬(e.2.2.chainId = cid ∧
            lowerString e.2.2.diamondContract = lowerString addr)) →
      detectChainNetwork cid addr = none) ∧
    (∀ addr, detectChainNetwork "999999" addr = none) := by
  refine ⟨by decide, by decide, by decide, by decide, by decide, ?_, ?_⟩
  · intro cid addr h
    rcases hf : chainEntries.find? (fun e =>
        e.2.2.chainId == cid &&
        lowerString e.2.2.diamondContract == lowerString addr) with _ | e
    · simp [detectChainNetwork, hf]
    · exfalso
      have hm : e ∈ chainEntries := List.mem_of_find?_eq_some hf
      have hp := List.find?_some hf
      simp only [Bool.and_eq_true, beq_iff_eq] at hp
      exact h e hm ⟨hp.1, hp.2⟩
  · intro addr
    simp [detectChainNetwork, chainEntries, List.find?,
      arbitrumMainnet, arbitrumTestnet, baseMainnet, baseTestnet]

/-- Witness for C3: the detection theorem applied at concrete inputs — the
Arbitrum-mainnet pair resolves, and an off-table pair is rejected. -/
theorem chain_detection_determinism_witness :
    detectChainNetwork "42161" "0xDE819AaEE474626E3f34Ef0263373357e5a6C71b"
        = some (Chain.arbitrum, Network.mainnet) ∧
    detectChainNetwork "1" "0x00" = none := by
  refine ⟨chain_detection_determinism.1, ?_⟩
  exact chain_detection_determinism.2.2.2.2.2.1 "1" "0x00" (by decide)

/-- `interface WalletBalance` from `types.ts` (the optional `ethBalance` is
always filled in by `getBalance`, which defaults it to `'0'`). -/
structure WalletBalance where
  address : String
  balance : String
  ethBalance : String
deriving DecidableEq, Repr

/-- The parts of `interface ProxyRouterConfig` (`types.ts`) that `configure`
reads: `Version`, `DerivedConfig.ChainID`, and
`Config.Marketplace.{DiamondContractAddress, MorTokenAddress}`. -/
structure ProxyRouterConfig where
  version : String
  chainID : Nat
  diamondContractAddress : String
  morTokenAddress : String
deriving DecidableEq, Repr

/-- `actualConfig` of `interface ConfigValidation` from `types.ts`. -/
structure ActualConfig where
  chainId : Nat
  diamondContract : String
  morTokenContract : String
  version : String
deriving DecidableEq, Repr

/-- `interface ConfigValidation` from `types.ts`. -/
structure ConfigValidation where
  isValid : Bool
  errors : List String
  warnings : List String
  actualConfig : Option ActualConfig
deriving DecidableEq, Repr

/-- `interface ApiConfig` from `types.ts`: the full configuration written to
the session store on a successful connect. -/
structure ApiConfig where
  baseUrl : String
  username : String
  password : String
  network : Network
  chain : Chain
deriving DecidableEq, Repr

/-- Oracle for the three remote calls the connect sequence makes. `none`
models the call rejecting/throwing; `some v` models it resolving with `v`
(`healthCheck` itself never throws — it catches internally and resolves
`false` — but `configure` guards it with a `try`/`catch` all the same, so the
thrown case is kept). -/
structure ConnectTransport where
  healthCheck : Option Bool
  getConfig : Option ProxyRouterConfig
  getBalance : Option WalletBalance

/-- One outbound effect of the connect sequence, in issue order:
a remote call, or the single `sessionStorage.setItem` write carrying the
full configuration. -/
inductive ConnectCall
  | healthCheck
  | getConfig
  | getBalance
  | sessionWrite (config : ApiConfig)
deriving DecidableEq, Repr

/-- The state a successful `configure` leaves behind: the persisted full
configuration, the fetched balance, and the validation record. -/
structure ConnectedSession where
  config : ApiConfig
  balance : WalletBalance
  validation : ConfigValidation
deriving DecidableEq, Repr

/-- The `configure` function of `ApiContext.tsx`, with its outbound calls
logged in order. Steps: (1) health check — a throw or `false` rejects with
`HEALTHCHECK_FAILED`; (2) `getConfig` — a throw rejects with
`CONFIG_FETCH_FAILED`; (3) chain/network auto-detection on
`DerivedConfig.ChainID.toString()` and the lowercased
`DiamondContractAddress` — no match rejects with `CHAIN_NOT_RECOGNIZED`;
(4) `getBalance` — a throw rejects with `AUTH_FAILED`; then the full
configuration (with the detected chain/network) is written to the session
store and the connected state is returned. -/
def configure (baseUrl username password : String) (t : ConnectTransport) :
    Except String ConnectedSession × List ConnectCall :=
  match t.healthCheck with
  | none => (.error "HEALTHCHECK_FAILED", [.healthCheck])
  | some false => (.error "HEALTHCHECK_FAILED", [.healthCheck])
  | some true =>
    match t.getConfig with
    | none => (.error "CONFIG_FETCH_FAILED", [.healthCheck, .getConfig])
    | some proxyConfig =>
      let detectedChainId := toString proxyConfig.chainID
      let detectedDiamond := lowerString proxyConfig.diamondContractAddress
      match detectChainNetwork detectedChainId detectedDiamond with
      | none => (.error "CHAIN_NOT_RECOGNIZED", [.healthCheck, .getConfig])
      | some (detectedChain, detectedNetwork) =>
        let validation : ConfigValidation :=
          { isValid := true
            errors := []
            warnings := []
            actualConfig := some
              { chainId := proxyConfig.chainID
                diamondContract := detectedDiamond
                morTokenContract := lowerString proxyConfig.morTokenAddress
                version := proxyConfig.version } }
        match t.getBalance with
        | none => (.error "AUTH_FAILED", [.healthCheck, .getConfig, .getBalance])
        | some balance =>
          let fullConfig : ApiConfig :=
            { baseUrl := baseUrl
              username := username
              password := password
              network := detectedNetwork
              chain := detectedChain }
          (.ok { config := fullConfig, balance := balance, validation := validation },
           [.healthCheck, .getConfig, .getBalance, .sessionWrite fullConfig])

/-- C1: the connect sequence of `configure` runs health-check, config fetch,
chain/network match, and balance fetch in that order; the first failing step
rejects with its distinct error code (`HEALTHCHECK_FAILED`,
`CONFIG_FETCH_FAILED`, `CHAIN_NOT_RECOGNIZED`, `AUTH_FAILED`) and no later
call — in particular a failed health check leaves the call log at exactly the
health check, so neither `getConfig` nor the balance fetch nor the
session-store write ever runs — and only when all four steps succeed is the
full configuration, including the detected chain and network, written to the
session store. -/
theorem configure_sequence (baseUrl username password : String)
    (t : ConnectTransport) :
    (t.healthCheck ≠ some true →
      configure baseUrl username password t
        = (.error "HEALTHCHECK_FAILED", [.healthCheck])) ∧
    (t.healthCheck = some true → t.getConfig = none →
      configure baseUrl username password t
        = (.error "CONFIG_FETCH_FAILED", [.healthCheck, .getConfig])) ∧
    (∀ cfg, t.healthCheck = some true → t.getConfig = some cfg →
      detectChainNetwork (toString cfg.chainID)
          (lowerString cfg.diamondContractAddress) = none →
      configure baseUrl username password t
        = (.error "CHAIN_NOT_RECOGNIZED", [.healthCheck, .getConfig])) ∧
    (∀ cfg c n, t.healthCheck = some true → t.getConfig = some cfg →
      detectChainNetwork (toString cfg.chainID)
          (lowerString cfg.diamondContractAddress) = some (c, n) →
      t.getBalance = none →
      configure baseUrl username password t
        = (.error "AUTH_FAILED", [.healthCheck, .getConfig, .getBalance])) ∧
    (∀ cfg c n bal, t.healthCheck = some true → t.getConfig = some cfg →
      detectChainNetwork (toString cfg.chainID)
          (lowerString cfg.diamondContractAddress) = some (c, n) →
      t.getBalance = some bal →
      configure baseUrl username password t
        = (.ok
            { config :=
                { baseUrl := baseUrl, username := username, password := password
                  network := n, chain := c }
              balance := bal
              validation :=
                { isValid := true, errors := [], warnings := []
                  actualConfig := some
                    { chainId := cfg.chainID
                      diamondContract := lowerString cfg.diamondContractAddress
                      morTokenContract := lowerString cfg.morTokenAddress
                      version := cfg.version } } },
           [.healthCheck, .getConfig, .getBalance,
            .sessionWrite
              { baseUrl := baseUrl, username := username, password := password
                network := n, chain := c }])) := by
  refine ⟨?_, ?_, ?_, ?_, ?_⟩
  · intro h
    rcases hh : t.healthCheck with _ | b
    · simp [configure, hh]
    · cases b
      · simp [configure, hh]
      · exact absurd hh h
  · intro hh hc
    simp [configure, hh, hc]
  · intro cfg hh hc hd
    simp [configure, hh, hc, hd]
  · intro cfg c n hh hc hd hb
    simp [configure, hh, hc, hd, hb]
  · intro cfg c n bal hh hc hd hb
    simp [configure, hh, hc, hd, hb]

/-- Witness for C1: the sequence theorem applied at concrete transports — a
transport whose health check resolves `false` stops after exactly one call
with `HEALTHCHECK_FAILED`, and a fully-working transport reporting the
Arbitrum-mainnet pair ends with the session write of the detected
configuration. -/
theorem configure_sequence_witness :
    (configure "http://node:8082" "admin" "pw"
        { healthCheck := some false, getConfig := none, getBalance := none }
      = (.error "HEALTHCHECK_FAILED", [.healthCheck])) ∧
    (configure "http://node:8082" "admin" "pw"
        { healthCheck := some true
          getConfig := some
            { version := "v1", chainID := 42161
              diamondContractAddress := "0xDE819AaEE474626E3f34Ef0263373357e5a6C71b"
              morTokenAddress := "0x092bAaDB7DEf4C3981454dD9c0A0D7FF07bCFc86" }
          getBalance := some { address := "0xabc", balance := "10", ethBalance := "1" } }).2
      = [.healthCheck, .getConfig, .getBalance,
         .sessionWrite
           { baseUrl := "http://node:8082", username := "admin", password := "pw"
             network := Network.mainnet, chain := Chain.arbitrum }] := by
  constructor
  · exact (configure_sequence "http://node:8082" "admin" "pw"
      { healthCheck := some false, getConfig := none, getBalance := none }).1
      (by decide)
  · have h := (configure_sequence "http://node:8082" "admin" "pw"
      { healthCheck := some true
        getConfig := some
          { version := "v1", chainID := 42161
            diamondContractAddress := "0xDE819AaEE474626E3f34Ef0263373357e5a6C71b"
            morTokenAddress := "0x092bAaDB7DEf4C3981454dD9c0A0D7FF07bCFc86" }
        getBalance := some { address := "0xabc", balance := "10", ethBalance := "1" } }).2.2.2.2
      _ Chain.arbitrum Network.mainnet
      { address := "0xabc", balance := "10", ethBalance := "1" }
      rfl rfl (by decide) rfl
    rw [h]

/-- The session-store entry as parsed back by the restore path of
`ApiProvider` (`ApiContext.tsx`). `JSON.parse` places no guarantee that a
`chain` field is present — legacy entries written before auto-detection lack
it — so `chain` is optional here, unlike in `ApiConfig`. -/
structure StoredApiConfig where
  baseUrl : String
  username : String
  password : String
  network : Network
  chain : Option Chain
deriving DecidableEq, Repr

/-- The context state the restore path sets. -/
structure RestoredState where
  isConfigured : Bool
  chain : Option Chain
  network : Option Network
deriving DecidableEq, Repr

/-- The session-restore `useEffect` of `ApiProvider` (`ApiContext.tsx`): if a
stored entry exists (and parses), the session is restored directly into the
configured state with `setChain(config.chain || 'arbitrum')` — the stored
chain when present, `'arbitrum'` otherwise — and `setNetwork(config.network)`;
with no stored entry the state is left disconnected. -/
def restoreSession (stored : Option StoredApiConfig) : RestoredState :=
  match stored with
  | none => { isConfigured := false, chain := none, network := none }
  | some config =>
    { isConfigured := true
      chain := some (config.chain.getD Chain.arbitrum)
      network := some config.network }

/-- C10: whenever a stored session entry exists at process start, the session
is restored into the connected state with the stored chain; a stored entry
with no `chain` field is silently defaulted to `arbitrum` rather than
rejected or re-detected, so every legacy entry displays chain `arbitrum`
regardless of the node's actual chain. -/
theorem restore_defaults_chain_to_arbitrum (config : StoredApiConfig) :
    (restoreSession (some config)).isConfigured = true ∧
    (restoreSession (some config)).network = some config.network ∧
    (∀ c, config.chain = some c →
      (restoreSession (some config)).chain = some c) ∧
    (config.chain = none →
      (restoreSession (some config)).chain = some Chain.arbitrum) := by
  refine ⟨rfl, rfl, ?_, ?_⟩
  · intro c hc
    simp [restoreSession, hc]
  · intro hc
    simp [restoreSession, hc]

/-- Witness for C10: restoring a concrete legacy entry (no `chain` field)
yields a connected session on chain `arbitrum`. -/
theorem restore_defaults_chain_to_arbitrum_witness :
    (restoreSession (some
        { baseUrl := "http://node:8082", username := "admin", password := "pw"
          network := Network.testnet, chain := none })).isConfigured = true ∧
    (restoreSession (some
        { baseUrl := "http://node:8082", username := "admin", password := "pw"
          network := Network.testnet, chain := none })).chain
      = some Chain.arbitrum := by
  constructor
  · exact (restore_defaults_chain_to_arbitrum
      { baseUrl := "http://node:8082", username := "admin", password := "pw"
        network := Network.testnet, chain := none }).1
  · exact (restore_defaults_chain_to_arbitrum
      { baseUrl := "http://node:8082", username := "admin", password := "pw"
        network := Network.testnet, chain := none }).2.2.2 rfl

/-- `interface Bid` from `types.ts`. -/
structure Bid where
  Id : String
  Provider : String
  ModelAgentId : String
  PricePerSecond : String
  Nonce : String
  CreatedAt : String
  DeletedAt : String
deriving DecidableEq, Repr

/-- `interface Model` from `types.ts`. -/
structure Model where
  Id : String
  IpfsCID : String
  Fee : Nat
  Stake : String
  Owner : String
  Name : String
  Tags : List String
  CreatedAt : Nat
  IsDeleted : Bool
  ModelType : Option String
deriving DecidableEq, Repr

/-- `interface LocalModel` from `types.ts` (a model the node itself serves). -/
structure LocalModel where
  Id : String
  Name : String
  Model : String
  ApiType : String
  ApiUrl : String
  Slots : Nat
  CapacityPolicy : String
deriving DecidableEq, Repr

/-- `interface ModelSyncStatus` from `types.ts`. -/
structure ModelSyncStatus where
  modelId : String
  modelName : String
  onBlockchain : Bool
  onLocalNode : Bool
  bidExists : Bool
  needsConfiguration : Bool
  bidId : Option String
deriving DecidableEq, Repr

/-- JavaScript `a || b` on strings: the empty string is falsy. -/
def jsOr (s fallback : String) : String :=
  if s = "" then fallback else s

/-- `analyzeSyncStatus` from `ModelConfigGenerator`: the reconciliation of the
three independently fetched collections. First pass — one record per active
bid, looking up the on-chain model (for its name) and the local model (for
serving presence); second pass — one record per local model referenced by no
active bid. The two `forEach`/`push` loops are rendered as `map`s appended in
the same order. -/
def analyzeSyncStatus (localList : List LocalModel) (bids : List Bid)
    (models : List Model) : List ModelSyncStatus :=
  (bids.map fun bid =>
    let model := models.find? fun m => m.Id == bid.ModelAgentId
    let localModel := localList.find? fun l => l.Id == bid.ModelAgentId
    { modelId := bid.ModelAgentId
      modelName := jsOr ((model.map Model.Name).getD "") "Unknown Model"
      onBlockchain := true
      onLocalNode := localModel.isSome
      bidExists := true
      needsConfiguration := localModel.isNone
      bidId := some bid.Id })
  ++
  ((localList.filter fun localModel =>
      !(bids.any fun b => b.ModelAgentId == localModel.Id)).map
    fun localModel =>
      let model := models.find? fun m => m.Id == localModel.Id
      { modelId := localModel.Id
        modelName := jsOr ((model.map Model.Name).getD "") localModel.Name
        onBlockchain := model.isSome
        onLocalNode := true
        bidExists := false
        needsConfiguration := false
        bidId := none })

theorem find?_isNone_eq_not_any {α : Type} (p : α → Bool) (l : List α) :
    (l.find? p).isNone = !(l.any p) := by
  rw [← find?_isSome_eq_any]
  cases l.find? p <;> rfl

/-- Local model "A"/"B" and on-chain model/bid samples for the reconciliation
example of C2. -/
def sampleLocal (id name : String) : LocalModel :=
  { Id := id, Name := name, Model := name, ApiType := "openai"
    ApiUrl := "http://localhost:1234", Slots := 8, CapacityPolicy := "simple" }

/-- An active bid (sentinel `DeletedAt = "0"`) referencing model `id`. -/
def sampleBid (bidId id : String) : Bid :=
  { Id := bidId, Provider := "0xprov", ModelAgentId := id
    PricePerSecond := "10000000000", Nonce := "0"
    CreatedAt := "1700000000", DeletedAt := "0" }

/-- An on-chain model record with identifier `id`. -/
def sampleModel (id name : String) : Model :=
  { Id := id, IpfsCID := "0x01", Fee := 300000000000000000
    Stake := "100000000000000000", Owner := "0xowner", Name := name
    Tags := ["llm"], CreatedAt := 1700000000, IsDeleted := false
    ModelType := none }

/-- C2: for every input triple, the reconciliation emits, for each active
bid, a record with `onBlockchain = true`, `bidExists = true`,
`onLocalNode` = (a local model with the bid's model id exists) and
`needsConfiguration = !onLocalNode`; and for each local model referenced by
no active bid, a record with `onLocalNode = true`, `bidExists = false`,
`needsConfiguration = false`. On local models {A, B}, bids referencing
{A, C}, and on-chain models {A, B, C}: A gets (true, true, false) for
(bidExists, onLocalNode, needsConfiguration), C gets (true, false, true),
and B gets (false, true, false). -/
theorem analyze_sync_classification (localList : List LocalModel)
    (bids : List Bid) (models : List Model) :
    (∀ bid ∈ bids, ∃ r ∈ analyzeSyncStatus localList bids models,
        r.modelId = bid.ModelAgentId ∧
        r.onBlockchain = true ∧
        r.bidExists = true ∧
        r.onLocalNode = localList.any (fun l => l.Id == bid.ModelAgentId) ∧
        r.needsConfiguration = !(localList.any fun l => l.Id == bid.ModelAgentId)) ∧
    (∀ lm ∈ localList, (bids.any fun b => b.ModelAgentId == lm.Id) = false →
      ∃ r ∈ analyzeSyncStatus localList bids models,
        r.modelId = lm.Id ∧
        r.onLocalNode = true ∧
        r.bidExists = false ∧
        r.needsConfiguration = false) ∧
    ((analyzeSyncStatus
        [sampleLocal "A" "Model A", sampleLocal "B" "Model B"]
        [sampleBid "bid-A" "A", sampleBid "bid-C" "C"]
        [sampleModel "A" "Model A", sampleModel "B" "Model B",
         sampleModel "C" "Model C"]).map
      (fun r => (r.modelId, r.bidExists, r.onLocalNode, r.needsConfiguration))
      = [("A", true, true, false), ("C", true, false, true),
         ("B", false, true, false)]) := by
  refine ⟨?_, ?_, by decide⟩
  · intro bid hb
    refine ⟨_, List.mem_append_left _ (List.mem_map_of_mem _ hb),
      rfl, rfl, rfl, ?_, ?_⟩
    · exact find?_isSome_eq_any _ _
    · exact find?_isNone_eq_not_any _ _
  · intro lm hl hnb
    refine ⟨_, List.mem_append_right _ (List.mem_map_of_mem _
      (List.mem_filter_of_mem hl (by simp [hnb]))), rfl, rfl, rfl, rfl⟩

/-- Witness for C2: the classification theorem applied to the concrete
{A, B} / {A, C} / {A, B, C} triple, extracting the record for the bid on
model C. -/
theorem analyze_sync_classification_witness :
    ∃ r ∈ analyzeSyncStatus
        [sampleLocal "A" "Model A", sampleLocal "B" "Model B"]
        [sampleBid "bid-A" "A", sampleBid "bid-C" "C"]
        [sampleModel "A" "Model A", sampleModel "B" "Model B",
         sampleModel "C" "Model C"],
      r.modelId = "C" ∧
      r.onBlockchain = true ∧
      r.bidExists = true ∧
      r.onLocalNode =
        ([sampleLocal "A" "Model A", sampleLocal "B" "Model B"].any
          fun l => l.Id == "C") ∧
      r.needsConfiguration =
        !([sampleLocal "A" "Model A", sampleLocal "B" "Model B"].any
          fun l => l.Id == "C") := by
  exact (analyze_sync_classification
    [sampleLocal "A" "Model A", sampleLocal "B" "Model B"]
    [sampleBid "bid-A" "A", sampleBid "bid-C" "C"]
    [sampleModel "A" "Model A", sampleModel "B" "Model B",
     sampleModel "C" "Model C"]).1 (sampleBid "bid-C" "C") (by decide)

/-- `interface ModelConfigEntry` from `types.ts`: one newly-submitted model
configuration. `apiKey` is initialised to the empty string by
`analyzeSyncStatus` and the generator treats the empty string as absent
(`config.apiKey && ...`); `concurrentSlots` is `number | ''` in TS, rendered
as `Option Nat` with `none` for `''`. -/
structure ModelConfigEntry where
  modelId : String
  modelName : String
  apiType : String
  apiUrl : String
  apiKey : String
  concurrentSlots : Option Nat
  capacityPolicy : String
deriving DecidableEq, Repr

/-- One entry of the `models` array of the generated configuration document
(`generateModelsConfigContent` in `ModelConfigGenerator`); `apiKey` is only
present when a non-empty key was submitted. -/
structure OutModelEntry where
  modelId : String
  modelName : String
  apiType : String
  apiUrl : String
  apiKey : Option String
  concurrentSlots : Option Nat
  capacityPolicy : String
deriving DecidableEq, Repr

/-- The object pushed for an existing local model (no `apiKey`: the
`/v1/models` read path never returns secrets). -/
def localToEntry (l : LocalModel) : OutModelEntry :=
  { modelId := l.Id, modelName := l.Name, apiType := l.ApiType
    apiUrl := l.ApiUrl, apiKey := none, concurrentSlots := some l.Slots
    capacityPolicy := l.CapacityPolicy }

/-- The object built from a newly-submitted configuration
(`...(config.apiKey && { apiKey: config.apiKey })` spreads the key only when
it is a non-empty string). -/
def configToEntry (c : ModelConfigEntry) : OutModelEntry :=
  { modelId := c.modelId, modelName := c.modelName, apiType := c.apiType
    apiUrl := c.apiUrl
    apiKey := if c.apiKey = "" then none else some c.apiKey
    concurrentSlots := c.concurrentSlots, capacityPolicy := c.capacityPolicy }

/-- The `findIndex`-then-replace-else-push step of
`generateModelsConfigContent`: replace the first entry whose `modelId`
matches, otherwise append at the end. -/
def upsertEntry (acc : List OutModelEntry) (e : OutModelEntry) :
    List OutModelEntry :=
  match acc with
  | [] => [e]
  | h :: t => if h.modelId == e.modelId then e :: t else h :: upsertEntry t e

/-- The full-replacement output of `generateModelsConfigContent`, modelled as
the `models` array of the generated document (the `$schema` wrapper and JSON
stringification are presentation only). The leading validation loop rejects
the first configuration with an empty API URL or with `concurrentSlots`
missing or below 1; otherwise all existing local models are pushed first and
every newly-submitted configuration is then upserted by `modelId`. -/
def generateModelsConfig (localModels : List LocalModel)
    (modelConfigs : List ModelConfigEntry) :
    Except String (List OutModelEntry) :=
  match modelConfigs.find? (fun c =>
      c.apiUrl == "" || decide (c.concurrentSlots.getD 0 < 1)) with
  | some config =>
    if config.apiUrl = "" then
      .error ("API URL is required for " ++ config.modelName)
    else
      .error ("Concurrent Slots must be at least 1 for " ++ config.modelName)
  | none =>
    .ok (modelConfigs.foldl
      (fun acc config => upsertEntry acc (configToEntry config))
      (localModels.map localToEntry))

theorem mem_upsertEntry_self (acc : List OutModelEntry) (e : OutModelEntry) :
    e ∈ upsertEntry acc e := by
  induction acc with
  | nil => exact List.mem_singleton_self e
  | cons h t ih =>
    by_cases hm : h.modelId == e.modelId
    · simp [upsertEntry, hm]
    · simp only [upsertEntry, hm, if_neg, Bool.false_eq_true, not_false_iff,
        List.mem_cons]
      exact Or.inr ih

theorem mem_upsertEntry_of_ne (acc : List OutModelEntry)
    (x e : OutModelEntry) (hx : x ∈ acc) (hne : x.modelId ≠ e.modelId) :
    x ∈ upsertEntry acc e := by
  induction acc with
  | nil => cases hx
  | cons h t ih =>
    by_cases hm : h.modelId == e.modelId
    · rcases List.mem_cons.mp hx with hxh | hxt
      · exact absurd (hxh ▸ (beq_iff_eq.mp hm)) hne
      · simp only [upsertEntry, hm, if_pos, List.mem_cons]
        exact Or.inr hxt
    · rcases List.mem_cons.mp hx with hxh | hxt
      · simp [upsertEntry, hm, hxh]
      · simp only [upsertEntry, hm, if_neg, Bool.false_eq_true, not_false_iff,
          List.mem_cons]
        exact Or.inr (ih hxt)

theorem countP_upsertEntry_self (acc : List OutModelEntry)
    (e : OutModelEntry) :
    (upsertEntry acc e).countP (fun a => a.modelId == e.modelId)
      = max (acc.countP (fun a => a.modelId == e.modelId)) 1 := by
  induction acc with
  | nil => simp [upsertEntry, List.countP_cons]
  | cons h t ih =>
    by_cases hm : h.modelId == e.modelId
    · simp [upsertEntry, hm, List.countP_cons]
    · simp only [upsertEntry, hm, if_neg, Bool.false_eq_true, not_false_iff]
      rw [List.countP_cons, List.countP_cons]
      simp only [hm]
      simpa using ih

theorem countP_upsertEntry_of_ne (acc : List OutModelEntry)
    (e : OutModelEntry) (x : String) (hne : x ≠ e.modelId) :
    (upsertEntry acc e).countP (fun a => a.modelId == x)
      = acc.countP (fun a => a.modelId == x) := by
  induction acc with
  | nil =>
    simp only [upsertEntry, List.countP_cons, List.countP_nil]
    have : (e.modelId == x) = false := by
      simpa using fun h => hne h.symm
    simp [this]
  | cons h t ih =>
    by_cases hm : h.modelId == e.modelId
    · have hh : (h.modelId == x) = false := by
        have he : h.modelId = e.modelId := beq_iff_eq.mp hm
        simpa [he] using fun h2 => hne h2.symm
      have he : (e.modelId == x) = false := by
        simpa using fun h2 => hne h2.symm
      simp [upsertEntry, hm, List.countP_cons, hh, he]
    · simp only [upsertEntry, hm, if_neg, Bool.false_eq_true, not_false_iff]
      rw [List.countP_cons, List.countP_cons, ih]

@[simp] theorem configToEntry_modelId (c : ModelConfigEntry) :
    (configToEntry c).modelId = c.modelId := rfl

@[simp] theorem localToEntry_modelId (l : LocalModel) :
    (localToEntry l).modelId = l.Id := rfl

theorem countP_upsertEntry_le_one (acc : List OutModelEntry)
    (e : OutModelEntry)
    (h : ∀ x, acc.countP (fun a => a.modelId == x) ≤ 1) :
    ∀ x, (upsertEntry acc e).countP (fun a => a.modelId == x) ≤ 1 := by
  intro x
  by_cases hx : x = e.modelId
  · subst hx
    rw [countP_upsertEntry_self]
    have := h e.modelId
    omega
  · rw [countP_upsertEntry_of_ne acc e x hx]
    exact h x

theorem foldl_upsert_mem_preserve (configs : List ModelConfigEntry) :
    ∀ (acc : List OutModelEntry) (x : OutModelEntry), x ∈ acc →
    (∀ c ∈ configs, c.modelId ≠ x.modelId) →
    x ∈ configs.foldl
      (fun acc config => upsertEntry acc (configToEntry config)) acc := by
  induction configs with
  | nil =>
    intro acc x hx _
    simpa using hx
  | cons c cs ih =>
    intro acc x hx h
    simp only [List.foldl_cons]
    apply ih _ x _ (fun c2 hc2 => h c2 (List.mem_cons_of_mem _ hc2))
    exact mem_upsertEntry_of_ne _ _ _ hx
      (Ne.symm (h c (List.mem_cons_self c cs)))

theorem foldl_upsert_countP_preserve (configs : List ModelConfigEntry) :
    ∀ (acc : List OutModelEntry) (x : String),
    (∀ c ∈ configs, c.modelId ≠ x) →
    (configs.foldl
        (fun acc config => upsertEntry acc (configToEntry config))
        acc).countP (fun e => e.modelId == x)
      = acc.countP (fun e => e.modelId == x) := by
  induction configs with
  | nil =>
    intro acc x _
    simp
  | cons c cs ih =>
    intro acc x h
    simp only [List.foldl_cons]
    rw [ih _ x (fun c2 hc2 => h c2 (List.mem_cons_of_mem _ hc2))]
    exact countP_upsertEntry_of_ne _ _ _
      (Ne.symm (h c (List.mem_cons_self c cs)))

theorem foldl_upsert_config_mem (configs : List ModelConfigEntry) :
    ∀ acc : List OutModelEntry,
    (configs.map ModelConfigEntry.modelId).Nodup →
    (∀ x, acc.countP (fun e => e.modelId == x) ≤ 1) →
    ∀ c ∈ configs,
      configToEntry c ∈ configs.foldl
        (fun acc config => upsertEntry acc (configToEntry config)) acc ∧
      (configs.foldl
          (fun acc config => upsertEntry acc (configToEntry config))
          acc).countP (fun e => e.modelId == c.modelId) = 1 := by
  induction configs with
  | nil =>
    intro acc _ _ c hc
    cases hc
  | cons c0 cs ih =>
    intro acc hnd hcnt c hc
    simp only [List.map_cons, List.nodup_cons] at hnd
    obtain ⟨hc0, hndcs⟩ := hnd
    have hfresh : ∀ c2 ∈ cs, c2.modelId ≠ c0.modelId := by
      intro c2 hc2 heq
      exact hc0 (heq ▸ List.mem_map_of_mem _ hc2)
    rcases List.mem_cons.mp hc with rfl | hcs
    · constructor
      · simp only [List.foldl_cons]
        exact foldl_upsert_mem_preserve cs _ _
          (mem_upsertEntry_self acc (configToEntry c)) hfresh
      · simp only [List.foldl_cons]
        rw [foldl_upsert_countP_preserve cs _ _ hfresh]
        have hs := countP_upsertEntry_self acc (configToEntry c)
        rw [configToEntry_modelId] at hs
        rw [hs]
        have := hcnt c.modelId
        omega
    · simp only [List.foldl_cons]
      exact ih (upsertEntry acc (configToEntry c0)) hndcs
        (countP_upsertEntry_le_one acc (configToEntry c0) hcnt) c hcs

theorem countP_le_one_of_nodup_map {α : Type} (f : α → String) (l : List α)
    (h : (l.map f).Nodup) (x : String) :
    l.countP (fun a => f a == x) ≤ 1 := by
  induction l with
  | nil => simp
  | cons a t ih =>
    simp only [List.map_cons, List.nodup_cons] at h
    obtain ⟨ha, ht⟩ := h
    rw [List.countP_cons]
    by_cases hfa : f a = x
    · have hz : t.countP (fun b => f b == x) = 0 := by
        apply List.countP_eq_zero.mpr
        intro b hb
        simp only [beq_iff_eq]
        intro heq
        exact ha (hfa ▸ heq ▸ List.mem_map_of_mem f hb)
      simp [hz, hfa]
    · have hb : (f a == x) = false := by simpa using hfa
      simp only [hb, if_false]
      simpa using ih ht

theorem countP_localEntries_le_one (localModels : List LocalModel)
    (h : (localModels.map LocalModel.Id).Nodup) (x : String) :
    (localModels.map localToEntry).countP (fun e => e.modelId == x) ≤ 1 := by
  rw [List.countP_map]
  exact countP_le_one_of_nodup_map LocalModel.Id localModels h x

/-- C8: in the full-replacement output of the configuration generator, every
newly-submitted configuration appears exactly once under its model id and
carries the newly-submitted values — so a model id present both in the
existing local-model list and in the submitted set has exactly one entry, the
new one (last write wins) — while every local model whose id is not
re-submitted is carried over unchanged. Stated for well-formed inputs: all
submitted configurations pass the generator's own validation, and model ids
are unique within each of the two input collections (local models come from
the node's id-keyed serving configuration, submitted configurations from an
id-keyed record). -/
theorem config_generation_last_write_wins (localModels : List LocalModel)
    (modelConfigs : List ModelConfigEntry)
    (hvalid : ∀ c ∈ modelConfigs,
      c.apiUrl ≠ "" ∧ 1 ≤ c.concurrentSlots.getD 0)
    (hlocal : (localModels.map LocalModel.Id).Nodup)
    (hconfigs : (modelConfigs.map ModelConfigEntry.modelId).Nodup) :
    ∃ out, generateModelsConfig localModels modelConfigs = .ok out ∧
      (∀ c ∈ modelConfigs,
        configToEntry c ∈ out ∧
        out.countP (fun e => e.modelId == c.modelId) = 1) ∧
      (∀ l ∈ localModels, (∀ c ∈ modelConfigs, c.modelId ≠ l.Id) →
        localToEntry l ∈ out) := by
  have hfind : modelConfigs.find? (fun c =>
      c.apiUrl == "" || decide (c.concurrentSlots.getD 0 < 1)) = none := by
    apply List.find?_eq_none.mpr
    intro c hc
    obtain ⟨h1, h2⟩ := hvalid c hc
    simp only [Bool.or_eq_true, beq_iff_eq, decide_eq_true_eq]
    push_neg
    exact ⟨h1, by omega⟩
  have hgen : generateModelsConfig localModels modelConfigs
      = .ok (modelConfigs.foldl
          (fun acc config => upsertEntry acc (configToEntry config))
          (localModels.map localToEntry)) := by
    unfold generateModelsConfig
    rw [hfind]
  refine ⟨_, hgen, ?_, ?_⟩
  · intro c hc
    exact foldl_upsert_config_mem modelConfigs _ hconfigs
      (countP_localEntries_le_one localModels hlocal) c hc
  · intro l hl hno
    apply foldl_upsert_mem_preserve modelConfigs _ _
      (List.mem_map_of_mem _ hl)
    intro c hc heq
    exact hno c hc (by simpa using heq)

/-- Witness for C8: the generator applied to a concrete local list {X, Y} and
a re-submission of X — X's entry is replaced by the new values, Y is carried
over. -/
theorem config_generation_last_write_wins_witness :
    ∃ out, generateModelsConfig
        [sampleLocal "X" "Old X", sampleLocal "Y" "Model Y"]
        [{ modelId := "X", modelName := "New X", apiType := "openai"
           apiUrl := "http://localhost:9999", apiKey := "secret"
           concurrentSlots := some 4, capacityPolicy := "simple" }]
      = .ok out ∧
      (∀ c ∈ [({ modelId := "X", modelName := "New X", apiType := "openai"
                 apiUrl := "http://localhost:9999", apiKey := "secret"
                 concurrentSlots := some 4
                 capacityPolicy := "simple" } : ModelConfigEntry)],
        configToEntry c ∈ out ∧
        out.countP (fun e => e.modelId == c.modelId) = 1) ∧
      (∀ l ∈ [sampleLocal "X" "Old X", sampleLocal "Y" "Model Y"],
        (∀ c ∈ [({ modelId := "X", modelName := "New X", apiType := "openai"
                   apiUrl := "http://localhost:9999", apiKey := "secret"
                   concurrentSlots := some 4
                   capacityPolicy := "simple" } : ModelConfigEntry)],
          c.modelId ≠ l.Id) →
        localToEntry l ∈ out) := by
  exact config_generation_last_write_wins
    [sampleLocal "X" "Old X", sampleLocal "Y" "Model Y"]
    [{ modelId := "X", modelName := "New X", apiType := "openai"
       apiUrl := "http://localhost:9999", apiKey := "secret"
       concurrentSlots := some 4, capacityPolicy := "simple" }]
    (by decide) (by decide) (by decide)

/-- `interface Provider` from `types.ts`. -/
structure Provider where
  Address : String
  Endpoint : String
  Stake : String
  CreatedAt : String
  IsDeleted : Bool
deriving DecidableEq, Repr

/-- `CONTRACT_MINIMUMS.PROVIDER_MIN_STAKE` from `constants.ts` (mor-wei). -/
def PROVIDER_MIN_STAKE : Nat := 200000000000000000

/-- `CONTRACT_MINIMUMS.MODEL_MIN_STAKE` from `constants.ts` (mor-wei). -/
def MODEL_MIN_STAKE : Nat := 100000000000000000

/-- `CONTRACT_MINIMUMS.MARKETPLACE_BID_FEE` from `constants.ts` (mor-wei). -/
def MARKETPLACE_BID_FEE : Nat := 300000000000000000

/-- `CONTRACT_MINIMUMS.BID_PRICE_PER_SEC_MIN` from `constants.ts` (mor-wei). -/
def BID_PRICE_PER_SEC_MIN : Nat := 10000000000

/-- The minimum provider stake in MOR as the handler compares it:
`parseFloat(formatMor(CONTRACT_MINIMUMS.PROVIDER_MIN_STAKE))`, which is
`parseFloat("0.20") = 0.2`. Numeric values parsed from the form are modelled
as exact rationals rather than IEEE-754 doubles. -/
def providerMinStakeMor : ℚ := (PROVIDER_MIN_STAKE : ℚ) / 10 ^ 18

/-- `isValidPositiveNumber` from `utils.ts` on the parsed form value: `none`
models a string `parseFloat` cannot parse (`NaN`). -/
def isValidPositiveNumber (v : Option ℚ) : Bool :=
  match v with
  | none => false
  | some n => decide (0 < n)

/-- `morToWei` from `utils.ts` on an already-parsed value:
`BigInt(Math.floor(morNum * 1e18))`, with the JS double arithmetic read as
exact rational arithmetic. -/
def morToWei (mor : ℚ) : ℤ :=
  ⌊mor * 10 ^ 18⌋

/-- One outbound call of the provider-creation handler (`ProviderTab`). -/
inductive ProviderCall
  | getAllowance (spender : String)
  | approve (spender : String) (amount : ℤ)
  | createProvider (endpoint : String) (stake : ℤ)
  | getProviders
deriving DecidableEq, Repr

/-- The user-visible outcome of `handleCreateProvider`: an early return, one
of the three client-side validation warnings, or the result of the
create/update attempt. -/
inductive CreateProviderOutcome
  | missingSession
  | configurationError
  | endpointWarning
  | invalidStakeWarning
  | insufficientStakeWarning
  | created
  | creationFailed
deriving DecidableEq, Repr

/-- Transport/context oracle for `handleCreateProvider`: whether the context
holds an API service and wallet, the network configuration, the allowance
`getAllowance` reports, and which `createProvider` attempt (0-based) would
succeed. -/
structure ProviderTabEnv where
  hasApiService : Bool
  walletBalance : Option WalletBalance
  networkConfig : Option NetworkConfig
  allowance : Nat
  createSucceeds : Nat → Bool

/-- The bounded retry loop of `handleCreateProvider` step 4: up to
`maxRetries = 5` `createProvider` attempts (with linearly increasing waits,
not modelled); the failure of the fifth attempt re-throws. Returns the
outcome and the `createProvider` calls issued. -/
def createRetry (succeeds : Nat → Bool) (endpoint : String) (stakeWei : ℤ)
    (retryCount : Nat) : CreateProviderOutcome × List ProviderCall :=
  if retryCount < 5 then
    if succeeds retryCount then
      (.created, [.createProvider endpoint stakeWei])
    else
      let rest := createRetry succeeds endpoint stakeWei (retryCount + 1)
      (rest.1, .createProvider endpoint stakeWei :: rest.2)
  else
    (.creationFailed, [])
termination_by 5 - retryCount

/-- `handleCreateProvider` from `ProviderTab`, with its outbound calls logged
in order: guard clauses (missing session, missing network config, empty
endpoint, unparseable or non-positive stake, stake below the displayed
minimum) return before any network call; otherwise the handler checks the
allowance, approves the stake amount if the allowance is short, runs the
bounded `createProvider` retry loop, and reloads the provider list on
success. Toast notifications and the existing-provider lookup (which only
changes notification wording) are not modelled. -/
def handleCreateProvider (env : ProviderTabEnv) (endpoint : String)
    (stakeMor : Option ℚ) : CreateProviderOutcome × List ProviderCall :=
  if env.hasApiService = false ∨ env.walletBalance = none then
    (.missingSession, [])
  else
    match env.networkConfig with
    | none => (.configurationError, [])
    | some networkConfig =>
      if endpoint = "" then (.endpointWarning, [])
      else if isValidPositiveNumber stakeMor = false then
        (.invalidStakeWarning, [])
      else
        let stakeNum := stakeMor.getD 0
        if stakeNum < providerMinStakeMor then
          (.insufficientStakeWarning, [])
        else
          let stakeWei := morToWei stakeNum
          let diamondContract := networkConfig.diamondContract
          let approvalCalls :=
            if (env.allowance : ℤ) < stakeWei then
              [ProviderCall.approve diamondContract stakeWei]
            else []
          let attempt := createRetry env.createSucceeds endpoint stakeWei 0
          let reloadCalls :=
            if attempt.1 = CreateProviderOutcome.created then
              [ProviderCall.getProviders]
            else []
          (attempt.1,
           ProviderCall.getAllowance diamondContract
             :: approvalCalls ++ attempt.2 ++ reloadCalls)

/-- C7: a provider-creation submission whose stake is below
`PROVIDER_MIN_STAKE` (0.2 MOR) is rejected client-side with a validation
warning, and the handler returns before issuing any network call — zero
calls to the allowance, approve, and create-provider transport methods; when
the endpoint is present and the stake parses to a positive value, the
warning is specifically the insufficient-stake one. -/
theorem provider_min_stake_guard (env : ProviderTabEnv) (endpoint : String)
    (q : ℚ) (hapi : env.hasApiService = true)
    (hw : env.walletBalance.isSome = true)
    (hnc : env.networkConfig.isSome = true)
    (hlow : q < providerMinStakeMor) :
    ((handleCreateProvider env endpoint (some q)).2 = [] ∧
      ((handleCreateProvider env endpoint (some q)).1
          = CreateProviderOutcome.endpointWarning ∨
       (handleCreateProvider env endpoint (some q)).1
          = CreateProviderOutcome.invalidStakeWarning ∨
       (handleCreateProvider env endpoint (some q)).1
          = CreateProviderOutcome.insufficientStakeWarning)) ∧
    (endpoint ≠ "" → 0 < q →
      (handleCreateProvider env endpoint (some q)).1
        = CreateProviderOutcome.insufficientStakeWarning) := by
  rcases hn : env.networkConfig with _ | nc
  · rw [hn] at hnc; cases hnc
  rcases hwb : env.walletBalance with _ | w
  · rw [hwb] at hw; cases hw
  have hcond : ¬(env.hasApiService = false ∨ env.walletBalance = none) := by
    rw [hapi, hwb]; simp
  by_cases hend : endpoint = ""
  · constructor
    · constructor
      · simp [handleCreateProvider, hcond, hn, hend]
      · left; simp [handleCreateProvider, hcond, hn, hend]
    · intro hne _; exact absurd hend hne
  · by_cases hpos : 0 < q
    · have hvalid : isValidPositiveNumber (some q) = true := by
        simp [isValidPositiveNumber, hpos]
      refine ⟨⟨?_, Or.inr (Or.inr ?_)⟩, fun _ _ => ?_⟩ <;>
        simp [handleCreateProvider, hcond, hn, hend, hvalid, hlow]
    · have hvalid : isValidPositiveNumber (some q) = false := by
        simp [isValidPositiveNumber, hpos]
      constructor
      · constructor
        · simp [handleCreateProvider, hcond, hn, hend, hvalid]
        · right; left; simp [handleCreateProvider, hcond, hn, hend, hvalid]
      · intro _ hq; exact absurd hq hpos

/-- Witness for C7: a concrete submission of 0.1 MOR (below the 0.2 MOR
minimum) in a connected session is rejected with the insufficient-stake
warning and issues no network call. -/
theorem provider_min_stake_guard_witness :
    ((handleCreateProvider
        { hasApiService := true
          walletBalance := some { address := "0xabc", balance := "0", ethBalance := "0" }
          networkConfig := some arbitrumMainnet
          allowance := 0
          createSucceeds := fun _ => true }
        "morpheus.example.com:3333" (some (1 / 10))).2 = []) ∧
    ((handleCreateProvider
        { hasApiService := true
          walletBalance := some { address := "0xabc", balance := "0", ethBalance := "0" }
          networkConfig := some arbitrumMainnet
          allowance := 0
          createSucceeds := fun _ => true }
        "morpheus.example.com:3333" (some (1 / 10))).1
      = CreateProviderOutcome.insufficientStakeWarning) := by
  have h := provider_min_stake_guard
    { hasApiService := true
      walletBalance := some { address := "0xabc", balance := "0", ethBalance := "0" }
      networkConfig := some arbitrumMainnet
      allowance := 0
      createSucceeds := fun _ => true }
    "morpheus.example.com:3333" (1 / 10) rfl rfl rfl
    (by norm_num [providerMinStakeMor, PROVIDER_MIN_STAKE])
  exact ⟨h.1.1, h.2 (by decide) (by norm_num)⟩

/-- Oracle for the bid-fetching methods of `ApiService`: the wallet address
the `/wallet` endpoint reports, and the server-side list of active bids per
provider address and per model id. A paginated request `(limit, offset)`
against such a list responds with `(all.drop offset).take limit` — the
standard fake paginated endpoint with full pages followed by one final
partial page. -/
structure BidsEnv where
  walletAddress : String
  providerActiveBids : String → List Bid
  modelActiveBids : String → List Bid

/-- One outbound request of the bid-fetching methods. -/
inductive BidsRequest
  | wallet
  | providerBidsPage (address : String) (limit : Nat) (pageOffset : Nat)
  | modelBidsPage (modelId : String) (limit : Nat) (pageOffset : Nat)
deriving DecidableEq, Repr

/-- `ApiService.getBids`: resolve the wallet address via `/wallet`, then
issue a single `/blockchain/providers/{address}/bids/active` request with
the fixed parameters `limit = 255`, `offset = 0`, and return that one page.
There is no loop here. -/
def getBids (env : BidsEnv) : List Bid × List BidsRequest :=
  let address := env.walletAddress
  let bids := ((env.providerActiveBids address).drop 0).take 255
  (bids, [.wallet, .providerBidsPage address 255 0])

/-- The `while (true)` pagination loop of `ApiService.getBidsForModel`:
request a page of `BATCH_SIZE = 255` at the current offset, append it to
`allBids`, stop when the page is shorter than 255, otherwise advance the
offset by 255. The request log records each page request in order. -/
def getBidsForModelLoop (modelId : String) (store : List Bid) (off : Nat)
    (allBids : List Bid) (reqs : List BidsRequest) :
    List Bid × List BidsRequest :=
  if h : ((store.drop off).take 255).length < 255 then
    (allBids ++ (store.drop off).take 255,
     reqs ++ [.modelBidsPage modelId 255 off])
  else
    getBidsForModelLoop modelId store (off + 255)
      (allBids ++ (store.drop off).take 255)
      (reqs ++ [.modelBidsPage modelId 255 off])
termination_by store.length - off
decreasing_by
  simp only [List.length_take, List.length_drop] at h
  omega

/-- `ApiService.getBidsForModel`: the pagination loop started at offset 0
with empty accumulators. -/
def getBidsForModel (modelId : String) (env : BidsEnv) :
    List Bid × List BidsRequest :=
  getBidsForModelLoop modelId (env.modelActiveBids modelId) 0 [] []

/-- The successive pages the pagination loop receives from a server holding
`remaining`: chunks of 255, with one final page shorter than 255. -/
def bidPages (remaining : List Bid) : List (List Bid) :=
  if h : (remaining.take 255).length < 255 then [remaining.take 255]
  else remaining.take 255 :: bidPages (remaining.drop 255)
termination_by remaining.length
decreasing_by
  simp only [List.length_take, List.length_drop] at h ⊢
  omega

theorem bidPages_ne_nil (l : List Bid) : bidPages l ≠ [] := by
  rw [bidPages]
  split <;> simp

theorem bidPages_flatten (l : List Bid) : (bidPages l).flatten = l := by
  induction l using bidPages.induct with
  | case1 l h =>
    rw [bidPages, dif_pos h]
    have hle : l.length ≤ 255 := by
      simp only [List.length_take] at h
      omega
    simp [List.take_of_length_le hle]
  | case2 l h ih =>
    rw [bidPages, dif_neg h]
    simp only [List.flatten_cons, ih]
    exact List.take_append_drop 255 l

theorem bidPages_dropLast_full (l : List Bid) :
    ∀ p ∈ (bidPages l).dropLast, p.length = 255 := by
  induction l using bidPages.induct with
  | case1 l h =>
    rw [bidPages, dif_pos h]
    simp
  | case2 l h ih =>
    rw [bidPages, dif_neg h]
    intro p hp
    rw [List.dropLast_cons_of_ne_nil (bidPages_ne_nil _)] at hp
    rcases List.mem_cons.mp hp with rfl | hp2
    · simp only [List.length_take] at h ⊢
      omega
    · exact ih p hp2

theorem bidPages_getLast_short (l : List Bid) :
    ∀ p, (bidPages l).getLast? = some p → p.length < 255 := by
  induction l using bidPages.induct with
  | case1 l h =>
    rw [bidPages, dif_pos h]
    intro p hp
    simp only [List.getLast?_singleton, Option.some_inj] at hp
    exact hp ▸ h
  | case2 l h ih =>
    rw [bidPages, dif_neg h]
    intro p hp
    rcases hr : bidPages (l.drop 255) with _ | ⟨r0, rs⟩
    · exact absurd hr (bidPages_ne_nil _)
    · rw [hr, List.getLast?_cons_cons] at hp
      exact ih p (hr ▸ hp)

theorem bidPages_countP_short (l : List Bid) :
    (bidPages l).countP (fun p => decide (p.length < 255)) = 1 := by
  induction l using bidPages.induct with
  | case1 l h =>
    have h2 : l.length < 255 := by
      simp only [List.length_take] at h
      omega
    rw [bidPages, dif_pos h]
    simp [List.countP_cons, h2]
  | case2 l h ih =>
    have h2 : 255 ≤ l.length := by
      simp only [List.length_take] at h
      omega
    rw [bidPages, dif_neg h, List.countP_cons]
    simp [h2, ih]

theorem getBidsForModelLoop_fst (modelId : String) (store : List Bid)
    (off : Nat) (allBids : List Bid) (reqs : List BidsRequest) :
    (getBidsForModelLoop modelId store off allBids reqs).1
      = allBids ++ (bidPages (store.drop off)).flatten := by
  induction off, allBids, reqs using getBidsForModelLoop.induct modelId store with
  | case1 off allBids reqs h =>
    rw [getBidsForModelLoop, dif_pos h, bidPages, dif_pos h]
    simp
  | case2 off allBids reqs h ih =>
    rw [getBidsForModelLoop, dif_neg h, ih]
    conv_rhs => rw [bidPages]
    rw [dif_neg h, List.flatten_cons, List.drop_drop]
    simp [List.append_assoc]

theorem getBidsForModelLoop_reqs (modelId : String) (store : List Bid)
    (off : Nat) (allBids : List Bid) (reqs : List BidsRequest) :
    (getBidsForModelLoop modelId store off allBids reqs).2.length
      = reqs.length + (bidPages (store.drop off)).length := by
  induction off, allBids, reqs using getBidsForModelLoop.induct modelId store with
  | case1 off allBids reqs h =>
    rw [getBidsForModelLoop, dif_pos h, bidPages, dif_pos h]
    simp
  | case2 off allBids reqs h ih =>
    rw [getBidsForModelLoop, dif_neg h, ih]
    conv_rhs => rw [bidPages]
    rw [dif_neg h, List.drop_drop]
    simp [List.length_append, List.length_cons]
    omega

/-- C4 counterexample: `getBids` does not paginate. Against a fake paginated
endpoint holding 260 active bids for the provider (pages of 255 and 5, whose
lengths sum to 260), `getBids` returns a single 255-bid page, so its
aggregate result length is 255 ≠ 260 — contradicting the claim that `getBids`
loops until a short page and aggregates all pages. -/
theorem getBids_single_page_counterexample :
    ((getBids
        { walletAddress := "0xprov"
          providerActiveBids := fun _ => List.replicate 260 (sampleBid "b" "M")
          modelActiveBids := fun _ => [] }).1.length = 255) ∧
    (((bidPages (List.replicate 260 (sampleBid "b" "M"))).map
        List.length).sum = 260) ∧
    ((255 : Nat) ≠ 260) := by
  refine ⟨?_, ?_, by decide⟩
  · show (((List.replicate 260 (sampleBid "b" "M")).drop 0).take 255).length
      = 255
    simp only [List.drop_zero, List.length_take, List.length_replicate]
    decide
  · rw [← List.length_flatten, bidPages_flatten]
    simp only [List.length_replicate]

/-- C4 (amended): `getBids` resolves the caller's wallet address via a
`/wallet` lookup and then issues exactly one active-bids request for that
provider with the fixed parameters `limit = 255`, `offset = 0`, returning
that single page; the pagination loop the claim describes lives in
`getBidsForModel`, for which, against any fake paginated endpoint, the
aggregate result equals the whole server-side list (its length is the sum of
all page lengths), every page but the last is full (255), the last page is
short, and exactly one request — the last — returns a short page, ending the
loop. -/
theorem bids_fetch_pagination (env : BidsEnv) (modelId : String) :
    ((getBids env).1 = (env.providerActiveBids env.walletAddress).take 255) ∧
    ((getBids env).2
        = [.wallet, .providerBidsPage env.walletAddress 255 0]) ∧
    ((getBidsForModel modelId env).1 = env.modelActiveBids modelId) ∧
    ((getBidsForModel modelId env).2.length
        = (bidPages (env.modelActiveBids modelId)).length) ∧
    (((bidPages (env.modelActiveBids modelId)).map List.length).sum
        = (env.modelActiveBids modelId).length) ∧
    (∀ p ∈ (bidPages (env.modelActiveBids modelId)).dropLast,
      p.length = 255) ∧
    (∀ p, (bidPages (env.modelActiveBids modelId)).getLast? = some p →
      p.length < 255) ∧
    ((bidPages (env.modelActiveBids modelId)).countP
        (fun p => decide (p.length < 255)) = 1) := by
  refine ⟨rfl, rfl, ?_, ?_, ?_, bidPages_dropLast_full _,
    bidPages_getLast_short _, bidPages_countP_short _⟩
  · show (getBidsForModelLoop modelId (env.modelActiveBids modelId) 0 [] []).1
      = _
    rw [getBidsForModelLoop_fst]
    simp [bidPages_flatten]
  · show (getBidsForModelLoop modelId
      (env.modelActiveBids modelId) 0 [] []).2.length = _
    rw [getBidsForModelLoop_reqs]
    simp
  · rw [← List.length_flatten, bidPages_flatten]

/-- Witness for C4 (amended): against a server holding 3 active bids for
model M, `getBidsForModel` returns all 3 bids, and the last (only) page is
short. -/
theorem bids_fetch_pagination_witness :
    ((getBidsForModel "M"
        { walletAddress := "0xp"
          providerActiveBids := fun _ => []
          modelActiveBids := fun _ => List.replicate 3 (sampleBid "b" "M") }).1
      = List.replicate 3 (sampleBid "b" "M")) ∧
    ((List.replicate 3 (sampleBid "b" "M")).length < 255) := by
  have hp : bidPages (List.replicate 3 (sampleBid "b" "M"))
      = [List.replicate 3 (sampleBid "b" "M")] := by
    rw [bidPages, dif_pos (by decide)]
    rfl
  constructor
  · exact (bids_fetch_pagination
      { walletAddress := "0xp"
        providerActiveBids := fun _ => []
        modelActiveBids := fun _ => List.replicate 3 (sampleBid "b" "M") }
      "M").2.2.1
  · exact (bids_fetch_pagination
      { walletAddress := "0xp"
        providerActiveBids := fun _ => []
        modelActiveBids := fun _ => List.replicate 3 (sampleBid "b" "M") }
      "M").2.2.2.2.2.2.1
      (List.replicate 3 (sampleBid "b" "M"))
      (by
        show (bidPages (List.replicate 3 (sampleBid "b" "M"))).getLast?
          = some (List.replicate 3 (sampleBid "b" "M"))
        rw [hp]
        simp)

/-- Skip the leading whitespace `parseInt` ignores. -/
def skipWs : List Char → List Char
  | [] => []
  | c :: rest =>
    if c = ' ' ∨ c = '\t' ∨ c = '\n' ∨ c = '\r' then skipWs rest
    else c :: rest

/-- Accumulate a leading run of decimal digits; `none` when no digit was
seen (JS `NaN`). -/
def digitsPrefix : List Char → Option Nat → Option Nat
  | [], acc => acc
  | c :: rest, acc =>
    if c.isDigit then
      digitsPrefix rest (some ((acc.getD 0) * 10 + (c.toNat - 48)))
    else acc

/-- JavaScript `parseInt(s, 10)`: skip leading whitespace, optional sign,
then the longest digit prefix; `none` models `NaN`. -/
def parseInt10 (s : String) : Option Int :=
  match skipWs s.toList with
  | '-' :: rest => (digitsPrefix rest none).map (fun n => -(n : Int))
  | '+' :: rest => (digitsPrefix rest none).map (fun n => (n : Int))
  | cs => (digitsPrefix cs none).map (fun n => (n : Int))

/-- JavaScript `String.prototype.split` with a single-character separator. -/
def splitList (sep : Char) : List Char → List (List Char)
  | [] => [[]]
  | c :: rest =>
    let r := splitList sep rest
    if c = sep then [] :: r
    else
      match r with
      | [] => [[c]]
      | h :: t => (c :: h) :: t

/-- `s.split(sep)` for a one-character separator, as a list of strings. -/
def splitString (sep : Char) (s : String) : List String :=
  (splitList sep s.toList).map String.mk

/-- The literal-IPv4 test `/^(\d{1,3}\.){3}\d{1,3}$/` of
`checkEndpointReachability`: four dot-separated groups of one to three
decimal digits. -/
def isIpAddress (host : String) : Bool :=
  let parts := splitString '.' host
  parts.length == 4 &&
    parts.all (fun p =>
      decide (1 ≤ p.length) && decide (p.length ≤ 3) &&
      p.toList.all Char.isDigit)

/-- Substring search over character lists (JS `String.prototype.includes`). -/
def containsSub : List Char → List Char → Bool
  | [], needle => needle.isEmpty
  | c :: rest, needle => needle.isPrefixOf (c :: rest) || containsSub rest needle

/-- `hay.includes(needle)`. -/
def strContains (hay needle : String) : Bool :=
  containsSub hay.toList needle.toList

/-- Outcome of the DNS-over-HTTPS lookup step: an A record, a successful
query with no A record, or any failure (non-OK response, timeout, or a
thrown error — all caught by the same `catch`). -/
inductive DnsOutcome
  | resolved (ip : String)
  | noRecord
  | failed
deriving DecidableEq, Repr

/-- What kind of value the probing `fetch` rejected with: an `Error` named
`AbortError` (the 5-second timeout), a `TypeError`, or any other error. -/
inductive FetchErrKind
  | abortError
  | typeError
  | otherError
deriving DecidableEq, Repr

/-- Outcome of the probing `fetch`: any response at all, or a rejection with
its kind, message, and the elapsed milliseconds at which it occurred. -/
inductive FetchOutcome
  | response
  | failure (kind : FetchErrKind) (msg : String) (elapsedMs : Nat)
deriving DecidableEq, Repr

/-- Environment oracle for the reachability probe: whether the page itself
is served over HTTPS (`window.location.protocol === 'https:'`), the DNS
lookup outcome, and the probing fetch outcome. -/
structure ProbeEnv where
  isHttpsPage : Bool
  dns : DnsOutcome
  fetch : FetchOutcome
deriving DecidableEq, Repr

/-- The `diagnostics` field of `PortCheckResult` (`apiService.ts`). -/
structure PortDiagnostics where
  hostResolves : Bool
  resolvedIp : Option String
  hostReachable : Bool
  message : String
deriving DecidableEq, Repr

/-- `interface PortCheckResult` from `apiService.ts`. -/
structure PortCheckResult where
  isOpen : Bool
  diagnostics : Option PortDiagnostics
deriving DecidableEq, Repr

/-- The input validation of `checkEndpointReachability`: exactly one
`:`-separated host and port, the port parsed with `parseInt(_, 10)` and
required to lie in 1–65535; violations throw (the outer `catch` re-throws
them unchanged, since they are not `TypeError`s). -/
def parseEndpoint (endpoint : String) : Except String (String × Int) :=
  let parts := splitString ':' endpoint
  if parts.length ≠ 2 then
    .error "Invalid endpoint format. Expected: hostname:port or ip:port"
  else
    match parseInt10 (parts.getD 1 "") with
    | none => .error "Invalid port number. Must be between 1 and 65535"
    | some port =>
      if port < 1 ∨ port > 65535 then
        .error "Invalid port number. Must be between 1 and 65535"
      else
        .ok (parts.getD 0 "", port)

/-- Step 3 of `checkEndpointReachability`: the probing `fetch` against
`http://{endpoint}/` with the 5-second abort timer. An `AbortError` is
reported as a closed port with a diagnostic; a near-instant (`< 100`ms)
`TypeError` on an HTTPS page is reported as the unverifiable
browser-security result; any other error whose message mentions `CORS`,
`NetworkError`, `Failed to fetch`, or `ERR_`, or which is a `TypeError`, is
treated as proof of a listening peer (`isOpen = true`); any remaining
unknown error is conservatively reported as not open with a
`Connection error` diagnostic. Any response at all is `isOpen = true`. -/
def probeFetch (host : String) (port : Int) (isIp : Bool)
    (resolvedIp : String) (env : ProbeEnv) : PortCheckResult :=
  match env.fetch with
  | .response => { isOpen := true, diagnostics := none }
  | .failure kind errMsg elapsed =>
    if kind = FetchErrKind.abortError then
      { isOpen := false
        diagnostics := some
          { hostResolves := true
            resolvedIp := if isIp then none else some resolvedIp
            hostReachable := false
            message :=
              if isIp then
                "Port " ++ toString port ++ " is closed on " ++ host ++
                  ". Check your firewall, port forwarding, and ensure your node is running."
              else
                "DNS resolves to " ++ resolvedIp ++ ", but port " ++
                  toString port ++
                  " is closed. Check your firewall, port forwarding, and ensure your node is running." } }
    else if env.isHttpsPage = true ∧ kind = FetchErrKind.typeError ∧
        elapsed < 100 then
      { isOpen := false
        diagnostics := some
          { hostResolves := true
            resolvedIp := if isIp then none else some resolvedIp
            hostReachable := false
            message :=
              "Cannot verify HTTP port from HTTPS page due to browser security. DNS resolves to "
                ++ (if isIp then host else resolvedIp) ++
                ". Please ensure port " ++ toString port ++
                " is open and forwarded correctly." } }
    else if strContains errMsg "CORS" || strContains errMsg "NetworkError" ||
        strContains errMsg "Failed to fetch" || strContains errMsg "ERR_" ||
        kind == FetchErrKind.typeError then
      { isOpen := true, diagnostics := none }
    else
      { isOpen := false
        diagnostics := some
          { hostResolves := true
            resolvedIp := if isIp then none else some resolvedIp
            hostReachable := false
            message := "Connection error: " ++ errMsg } }

/-- `ApiService.checkEndpointReachability`: validate the `host:port` input,
resolve non-IP hosts over DNS-over-HTTPS (no A record or a failed lookup is
returned as a non-open result with a descriptive diagnostic, not thrown),
then probe the port. -/
def checkEndpointReachability (endpoint : String) (env : ProbeEnv) :
    Except String PortCheckResult :=
  match parseEndpoint endpoint with
  | .error e => .error e
  | .ok (host, port) =>
    if isIpAddress host then
      .ok (probeFetch host port true host env)
    else
      match env.dns with
      | .resolved ip => .ok (probeFetch host port false ip env)
      | .noRecord =>
        .ok { isOpen := false
              diagnostics := some
                { hostResolves := false
                  resolvedIp := none
                  hostReachable := false
                  message := "Invalid hostname: \"" ++ host ++
                    "\" does not resolve to an IP address. Check your spelling or use an IP address instead." } }
      | .failed =>
        .ok { isOpen := false
              diagnostics := some
                { hostResolves := false
                  resolvedIp := none
                  hostReachable := false
                  message := "Invalid hostname: Cannot resolve \"" ++ host ++
                    "\". Check your spelling or use an IP address instead." } }

theorem checkEndpointReachability_ip (endpoint host : String) (port : Int)
    (env : ProbeEnv) (hp : parseEndpoint endpoint = .ok (host, port))
    (hip : isIpAddress host = true) :
    checkEndpointReachability endpoint env
      = .ok (probeFetch host port true host env) := by
  unfold checkEndpointReachability
  rw [hp]
  simp [hip]

/-- C5 counterexample: not every non-abort error makes the probe report the
port open. A non-`TypeError` rejection whose message matches none of the
recognised patterns (`CORS`, `NetworkError`, `Failed to fetch`, `ERR_`)
falls into the conservative unknown-error branch: the probe reports
`isOpen = false` with a `Connection error` diagnostic. -/
theorem probe_nonabort_error_counterexample :
    checkEndpointReachability "1.2.3.4:80"
      { isHttpsPage := false, dns := DnsOutcome.failed
        fetch := FetchOutcome.failure FetchErrKind.otherError
          "weird failure" 500 }
      = .ok { isOpen := false
              diagnostics := some
                { hostResolves := true, resolvedIp := none
                  hostReachable := false
                  message := "Connection error: weird failure" } } := rfl

/-- C5 (amended): for a well-formed `host:port` probe of a literal IP host,
an abort-triggered timeout yields `isOpen = false` with the closed-port
diagnostic; any response yields `isOpen = true`; a non-abort error yields
`isOpen = true` when it is a `TypeError` outside the secure-context
near-instant case, or when its message mentions `CORS`, `NetworkError`,
`Failed to fetch`, or `ERR_`; any other unrecognised non-abort error is
conservatively reported `isOpen = false` with a `Connection error`
diagnostic (and the secure-context near-instant `TypeError` is the separate
unverifiable result). -/
theorem probe_timeout_vs_error (endpoint host : String) (port : Int)
    (env : ProbeEnv) (hp : parseEndpoint endpoint = .ok (host, port))
    (hip : isIpAddress host = true) :
    (∀ msg e, env.fetch = FetchOutcome.failure FetchErrKind.abortError msg e →
      checkEndpointReachability endpoint env = .ok
        { isOpen := false
          diagnostics := some
            { hostResolves := true, resolvedIp := none, hostReachable := false
              message := "Port " ++ toString port ++ " is closed on " ++ host
                ++ ". Check your firewall, port forwarding, and ensure your node is running." } }) ∧
    (env.fetch = FetchOutcome.response →
      checkEndpointReachability endpoint env
        = .ok { isOpen := true, diagnostics := none }) ∧
    (∀ msg e, env.fetch = FetchOutcome.failure FetchErrKind.typeError msg e →
      ¬(env.isHttpsPage = true ∧ e < 100) →
      checkEndpointReachability endpoint env
        = .ok { isOpen := true, diagnostics := none }) ∧
    (∀ kind msg e, env.fetch = FetchOutcome.failure kind msg e →
      kind ≠ FetchErrKind.abortError →
      ¬(env.isHttpsPage = true ∧ kind = FetchErrKind.typeError ∧ e < 100) →
      (strContains msg "CORS" || strContains msg "NetworkError" ||
        strContains msg "Failed to fetch" || strContains msg "ERR_" ||
        kind == FetchErrKind.typeError) = true →
      checkEndpointReachability endpoint env
        = .ok { isOpen := true, diagnostics := none }) ∧
    (∀ kind msg e, env.fetch = FetchOutcome.failure kind msg e →
      kind ≠ FetchErrKind.abortError →
      ¬(env.isHttpsPage = true ∧ kind = FetchErrKind.typeError ∧ e < 100) →
      (strContains msg "CORS" || strContains msg "NetworkError" ||
        strContains msg "Failed to fetch" || strContains msg "ERR_" ||
        kind == FetchErrKind.typeError) = false →
      checkEndpointReachability endpoint env = .ok
        { isOpen := false
          diagnostics := some
            { hostResolves := true, resolvedIp := none, hostReachable := false
              message := "Connection error: " ++ msg } }) := by
  refine ⟨?_, ?_, ?_, ?_, ?_⟩
  · intro msg e hf
    rw [checkEndpointReachability_ip endpoint host port env hp hip]
    simp [probeFetch, hf]
  · intro hf
    rw [checkEndpointReachability_ip endpoint host port env hp hip]
    simp [probeFetch, hf]
  · intro msg e hf hneg
    rw [checkEndpointReachability_ip endpoint host port env hp hip]
    simp only [probeFetch, hf]
    rw [if_neg (by simp)]
    have hneg2 : ¬(env.isHttpsPage = true ∧ True ∧ e < 100) := by
      rintro ⟨h1, _, h3⟩
      exact hneg ⟨h1, h3⟩
    rw [if_neg hneg2]
    simp
  · intro kind msg e hf hkind hneg hmatch
    rw [checkEndpointReachability_ip endpoint host port env hp hip]
    simp only [probeFetch, hf]
    rw [if_neg hkind, if_neg hneg, if_pos hmatch]
  · intro kind msg e hf hkind hneg hmatch
    rw [checkEndpointReachability_ip endpoint host port env hp hip]
    simp only [probeFetch, hf]
    rw [if_neg hkind, if_neg hneg, if_neg (by simp [hmatch])]
    simp

/-- Witness for C5 (amended): probing `1.2.3.4:80` with an aborting
transport reports the port closed with the closed diagnostic; with a CORS
rejection it reports the port open. -/
theorem probe_timeout_vs_error_witness :
    (checkEndpointReachability "1.2.3.4:80"
        { isHttpsPage := false, dns := DnsOutcome.failed
          fetch := FetchOutcome.failure FetchErrKind.abortError
            "The user aborted a request." 5000 }
      = .ok { isOpen := false
              diagnostics := some
                { hostResolves := true, resolvedIp := none
                  hostReachable := false
                  message := "Port 80 is closed on 1.2.3.4. Check your firewall, port forwarding, and ensure your node is running." } }) ∧
    (checkEndpointReachability "1.2.3.4:80"
        { isHttpsPage := false, dns := DnsOutcome.failed
          fetch := FetchOutcome.failure FetchErrKind.otherError
            "CORS request did not succeed" 40 }
      = .ok { isOpen := true, diagnostics := none }) := by
  constructor
  · exact (probe_timeout_vs_error "1.2.3.4:80" "1.2.3.4" 80
        { isHttpsPage := false, dns := DnsOutcome.failed
          fetch := FetchOutcome.failure FetchErrKind.abortError
            "The user aborted a request." 5000 } rfl rfl).1
      "The user aborted a request." 5000 rfl
  · exact (probe_timeout_vs_error "1.2.3.4:80" "1.2.3.4" 80
        { isHttpsPage := false, dns := DnsOutcome.failed
          fetch := FetchOutcome.failure FetchErrKind.otherError
            "CORS request did not succeed" 40 } rfl rfl).2.2.2.1
      FetchErrKind.otherError "CORS request did not succeed" 40 rfl
      (by decide) (by rintro ⟨_, h, _⟩; cases h) rfl

/-- C6: a probe issued from an HTTPS page whose fetch fails near-instantly
(< 100 ms) with a `TypeError` — the browser mixed-content block — is
reported with the cannot-verify ("unverifiable") diagnostic, a result whose
message differs from the closed-port diagnostic a timeout produces, so a
caller can distinguish the two outcomes. -/
theorem probe_mixed_content_distinct (endpoint host : String) (port : Int)
    (dns : DnsOutcome) (msgM msgT : String) (eM eT : Nat)
    (hp : parseEndpoint endpoint = .ok (host, port))
    (hip : isIpAddress host = true)
    (hfast : eM < 100) :
    (checkEndpointReachability endpoint
        { isHttpsPage := true, dns := dns
          fetch := FetchOutcome.failure FetchErrKind.typeError msgM eM }
      = .ok { isOpen := false
              diagnostics := some
                { hostResolves := true, resolvedIp := none
                  hostReachable := false
                  message := "Cannot verify HTTP port from HTTPS page due to browser security. DNS resolves to "
                    ++ host ++ ". Please ensure port " ++ toString port
                    ++ " is open and forwarded correctly." } }) ∧
    (checkEndpointReachability endpoint
        { isHttpsPage := true, dns := dns
          fetch := FetchOutcome.failure FetchErrKind.abortError msgT eT }
      = .ok { isOpen := false
              diagnostics := some
                { hostResolves := true, resolvedIp := none
                  hostReachable := false
                  message := "Port " ++ toString port ++ " is closed on "
                    ++ host
                    ++ ". Check your firewall, port forwarding, and ensure your node is running." } }) ∧
    ("Cannot verify HTTP port from HTTPS page due to browser security. DNS resolves to "
        ++ host ++ ". Please ensure port " ++ toString port
        ++ " is open and forwarded correctly."
      ≠ "Port " ++ toString port ++ " is closed on " ++ host
        ++ ". Check your firewall, port forwarding, and ensure your node is running.") ∧
    (strContains
      ("Cannot verify HTTP port from HTTPS page due to browser security. DNS resolves to "
        ++ host ++ ". Please ensure port " ++ toString port
        ++ " is open and forwarded correctly.") "Cannot verify" = true) := by
  refine ⟨?_, ?_, ?_, ?_⟩
  · rw [checkEndpointReachability_ip endpoint host port _ hp hip]
    simp only [probeFetch]
    rw [if_neg (by simp), if_pos ⟨trivial, trivial, hfast⟩]
    simp
  · rw [checkEndpointReachability_ip endpoint host port _ hp hip]
    simp [probeFetch]
  · intro heq
    have h1 := congrArg (fun s : String => s.data.head?) heq
    simp only [String.data_append] at h1
    have h2 : some 'C' = some 'P' := h1
    exact absurd h2 (by decide)
  · rfl

/-- Witness for C6: the mixed-content result and the timeout result for the
concrete probe `1.2.3.4:80`, with distinct diagnostics. -/
theorem probe_mixed_content_distinct_witness :
    (checkEndpointReachability "1.2.3.4:80"
        { isHttpsPage := true, dns := DnsOutcome.failed
          fetch := FetchOutcome.failure FetchErrKind.typeError
            "Failed to fetch" 10 }
      = .ok { isOpen := false
              diagnostics := some
                { hostResolves := true, resolvedIp := none
                  hostReachable := false
                  message := "Cannot verify HTTP port from HTTPS page due to browser security. DNS resolves to 1.2.3.4. Please ensure port 80 is open and forwarded correctly." } }) ∧
    ("Cannot verify HTTP port from HTTPS page due to browser security. DNS resolves to 1.2.3.4. Please ensure port 80 is open and forwarded correctly."
      ≠ "Port 80 is closed on 1.2.3.4. Check your firewall, port forwarding, and ensure your node is running.") := by
  have h := probe_mixed_content_distinct "1.2.3.4:80" "1.2.3.4" 80
    DnsOutcome.failed "Failed to fetch" "x" 10 0 rfl rfl (by decide)
  exact ⟨h.1, h.2.2.1⟩

end MyProvider
